import Mathlib

/-!
Shallow embedding of the sentiment-scoring and trend-forecasting pipeline of
`src/untitled34-1.py` (a Streamlit dashboard).  External collaborators
(language detection, the two HuggingFace classifiers, the OpenAI chat
completion, yfinance) are modelled as oracles supplied through an
environment record; an oracle returning `none` models the corresponding
Python call raising an exception (or the model handle being `None` where
the field itself is an `Option`).  Machine floats are modelled by exact
rationals.
-/

/-- Oracles for the external collaborators used by `analyze_sentiment`
(lines 121-163 of the source).  `detect` is `langdetect.detect` (`none` =
raises); `sentiment_en` / `sentiment_zh` are the HuggingFace pipelines
(outer `none` = handle is `None` because loading failed at line 38; inner
`none` = inference raises; `some label` = the returned `result["label"]`);
`openai` is the chat-completion call (`none` = raises, `some r` = the
response message content). -/
structure SentimentEnv where
  detect : String → Option String
  sentiment_en : Option (String → Option String)
  sentiment_zh : Option (String → Option String)
  openai : String → Option String

/-- Result of one `analyze_sentiment` call: the integer score together with
a trace of which fallback tiers were actually invoked. -/
structure SentimentResult where
  score : Int
  usedLocal : Bool
  usedRemote : Bool
deriving DecidableEq, Repr

/-- Fuel-indexed worker for `re.sub(r'<[^>]+>', '', text)` (line 123): scan
left to right; at `<`, greedily take the maximal run of non-`>` characters
and, if it is nonempty and followed by `>`, delete the whole match,
otherwise keep the `<`.  One character is consumed per step, so fuel equal
to the input length suffices. -/
def stripTagsFuel : Nat → List Char → List Char
  | _, [] => []
  | 0, l => l
  | fuel + 1, c :: rest =>
    if c = '<' then
      match rest.dropWhile (fun x => x ≠ '>') with
      | '>' :: rest2 =>
        if rest.takeWhile (fun x => x ≠ '>') = [] then c :: stripTagsFuel fuel rest
        else stripTagsFuel fuel rest2
      | _ => c :: stripTagsFuel fuel rest
    else c :: stripTagsFuel fuel rest

/-- Markup stripping applied to the input text (line 123). -/
def stripTags (s : String) : String :=
  ⟨stripTagsFuel s.toList.length s.toList⟩

/-- Boolean substring test (Python's `pat in s`). -/
def listHasInfix : List Char → List Char → Bool
  | pat, [] => pat.isEmpty
  | pat, c :: rest => pat.isPrefixOf (c :: rest) || listHasInfix pat rest

/-- Python's `pat in s` on strings. -/
def strContains (s pat : String) : Bool :=
  listHasInfix pat.toList s.toList

/-- Parsing of the OpenAI response (lines 153-159):
`result = response...content.strip().upper()`, then `"POSITIVE" in result`
is checked before `"NEGATIVE" in result`, anything else gives 0. -/
def parse_remote (resp : String) : Int :=
  if strContains resp.trim.toUpper "POSITIVE" then 1
  else if strContains resp.trim.toUpper "NEGATIVE" then -1
  else 0

/-- The OpenAI fallback tier (lines 142-161): the call is attempted once;
on success its content is parsed, on exception the `except: pass` falls
through to `return 0` (line 163).  `usedLocal` records whether a local
classifier was invoked before falling back. -/
def remoteStep (env : SentimentEnv) (cleaned : String) (usedLocal : Bool) : SentimentResult :=
  match env.openai cleaned with
  | some resp => ⟨parse_remote resp, usedLocal, true⟩
  | none => ⟨0, usedLocal, true⟩

/-- Core of `analyze_sentiment` after markup stripping (lines 124-163).
Language detection failure defaults to "en" (lines 124-127).  When
`detailed` is true both the HuggingFace branch (guard at line 130) and the
OpenAI branch (guard at line 143) are skipped and the final `return 0`
(line 163) is reached.  Otherwise: if the detected language is "en" and
the English model handle is loaded, it is run; a successful inference
returns `1` when the label is `"POSITIVE"`, else `-1` (line 134); an
inference exception falls through to the OpenAI tier.  Same for "zh" with
positive label `"positive"` (line 137).  Any other language goes straight
to the OpenAI tier. -/
def sentimentCore (env : SentimentEnv) (cleaned : String) (detailed : Bool) : SentimentResult :=
  if detailed then ⟨0, false, false⟩
  else if (env.detect cleaned).getD "en" = "en" then
    match env.sentiment_en with
    | some f =>
      match f cleaned with
      | some label => ⟨if label = "POSITIVE" then 1 else -1, true, false⟩
      | none => remoteStep env cleaned true
    | none => remoteStep env cleaned false
  else if (env.detect cleaned).getD "en" = "zh" then
    match env.sentiment_zh with
    | some f =>
      match f cleaned with
      | some label => ⟨if label = "positive" then 1 else -1, true, false⟩
      | none => remoteStep env cleaned true
    | none => remoteStep env cleaned false
  else remoteStep env cleaned false

/-- `analyze_sentiment(text, detailed)` (lines 121-163). -/
def analyze_sentiment (env : SentimentEnv) (text : String) (detailed : Bool) : SentimentResult :=
  sentimentCore env (stripTags text) detailed

/-- One row of the news dataframe fed to `batch_sentiment_analysis`.
`title := none` models a row on which `row['title']` raises (the
per-item `except: continue` at lines 181-182); `published` is the optional
`published` field read with `row.get` (line 178), `none` meaning the
`datetime.now()` default.  Timestamps are abstracted to naturals. -/
structure NewsRow where
  title : Option String
  published : Option Nat
deriving DecidableEq, Repr

/-- One record appended to `results` by the batch loop (lines 174-179). -/
structure BatchEntry where
  title : String
  score : Int
  label : String
  time : Option Nat
deriving DecidableEq, Repr

/-- Body of one iteration of the batch loop (lines 170-182): read the
title (failure skips the row), score it with `analyze_sentiment`, and
derive the label string (line 173). -/
def scoreRow (env : SentimentEnv) (row : NewsRow) : Option BatchEntry :=
  match row.title with
  | none => none
  | some text =>
    some
      { title := text
        score := (analyze_sentiment env text false).score
        label :=
          if (analyze_sentiment env text false).score > 0 then "Positive"
          else if (analyze_sentiment env text false).score < 0 then "Negative"
          else "Neutral"
        time := row.published }

/-- The `for _, row in df_subset.iterrows()` loop of
`batch_sentiment_analysis` (lines 167-183): each row is processed in
order; a row whose processing fails is skipped (`except: continue`). -/
def batchLoop (env : SentimentEnv) : List NewsRow → List BatchEntry
  | [] => []
  | row :: rest =>
    match scoreRow env row with
    | some e => e :: batchLoop env rest
    | none => batchLoop env rest

/-- `batch_sentiment_analysis(df, max_count)` (lines 165-183):
`df_subset = df.head(max_count)` then the row loop.  The fixed
`time.sleep(0.2)` pause (line 180) has no observable effect on the result
and is not modelled. -/
def batch_sentiment_analysis (env : SentimentEnv) (df : List NewsRow) (max_count : Nat) :
    List BatchEntry :=
  batchLoop env (df.take max_count)

/-- Pandas `Series.rolling(window=k).mean()` on the `Close` column (lines
113-114): position `i` carries the mean of the `k` closes ending at `i`
once `i + 1 ≥ k`, and is `NaN` (modelled `none`) before that. -/
def rollingMean (k : Nat) (closes : List ℚ) : List (Option ℚ) :=
  (List.range closes.length).map (fun i =>
    if i + 1 ≥ k then some ((((closes.drop (i + 1 - k)).take k).sum) / (k : ℚ)) else none)

/-- The dataframe returned by `fetch_stock_data` (lines 106-118), reduced
to the columns the claims mention.  The yfinance download is an external
oracle; `closes` is the `Close` column of the history it returned (the
other columns are passed through unchanged and omitted here).  The
function adds the `MA5` and `MA20` rolling-mean columns. -/
structure FetchedFrame where
  closes : List ℚ
  ma5 : List (Option ℚ)
  ma20 : List (Option ℚ)
deriving DecidableEq, Repr

/-- `fetch_stock_data` (lines 106-118) applied to the `Close` column of
the externally fetched history: an empty history is returned as an empty
frame (line 112), otherwise the `MA5`/`MA20` columns are derived (lines
113-114). -/
def fetch_stock_data (hist : List ℚ) : FetchedFrame :=
  if hist.isEmpty then ⟨[], [], []⟩
  else ⟨hist, rollingMean 5 hist, rollingMean 20 hist⟩

/-- Pandas `dayofweek` (Monday = 0) of a calendar day counted in days
from 1970-01-01, which was a Thursday. -/
def dayOfWeek (d : Nat) : Nat := (d + 3) % 7

/-- Calendar month (1-12) of a day counted from 1970-01-01, by the
standard civil-from-days conversion. -/
def monthOf (d : Nat) : Nat :=
  let z := d + 719468
  let doe := z % 146097
  let yoe := (doe - doe / 1460 + doe / 36524 - doe / 146096) / 365
  let doy := doe - (365 * yoe + yoe / 4 - yoe / 100)
  let mp := (5 * doy + 2) / 153
  if mp < 10 then mp + 3 else mp - 9

/-- `PolynomialFeatures(degree=2)` (line 198) on the two raw features
`(day_of_week, month)`: the expanded row `[1, a, b, a², ab, b²]`. -/
def polyFeatures2 (a b : ℚ) : List ℚ := [1, a, b, a * a, a * b, b * b]

/-- Dot product of two rational vectors. -/
def dotQ (u v : List ℚ) : ℚ := (List.zipWith (fun a b => a * b) u v).sum

/-- Drop column `j` from every row. -/
def eraseCol (j : Nat) (m : List (List ℚ)) : List (List ℚ) :=
  m.map (fun r => r.eraseIdx j)

/-- Determinant by Laplace expansion along the first row, fuel-indexed so
that it is structurally recursive (fuel = number of rows suffices). -/
def detFuel : Nat → List (List ℚ) → ℚ
  | _, [] => 1
  | 0, _ => 0
  | n + 1, row :: rest =>
    (row.enum.map (fun p =>
      (if p.1 % 2 = 0 then p.2 else -p.2) * detFuel n (eraseCol p.1 rest))).sum

/-- Determinant of a square rational matrix given as a list of rows. -/
def detQ (m : List (List ℚ)) : ℚ := detFuel m.length m

/-- Row list with column `j` replaced by the vector `b`. -/
def setCol (j : Nat) (b : List ℚ) (m : List (List ℚ)) : List (List ℚ) :=
  (m.zip b).map (fun rb => rb.1.set j rb.2)

/-- Solve the square linear system `A x = b` by Cramer's rule; a singular
system yields the zero vector.  Deterministic in its inputs. -/
def cramerSolve (A : List (List ℚ)) (b : List ℚ) : List ℚ :=
  if detQ A = 0 then List.replicate b.length 0
  else (List.range b.length).map (fun j => detQ (setCol j b A) / detQ A)

/-- Gram matrix `Xᵀ X` of the 6-column design matrix. -/
def normalMatrix (X : List (List ℚ))  : List (List ℚ) :=
  (List.range 6).map (fun j => (List.range 6).map (fun k =>
    (X.map (fun r => r.getD j 0 * r.getD k 0)).sum))

/-- Moment vector `Xᵀ y` of the 6-column design matrix. -/
def normalVector (X : List (List ℚ)) (y : List ℚ) : List ℚ :=
  (List.range 6).map (fun j => ((X.zip y).map (fun ry => ry.1.getD j 0 * ry.2)).sum)

/-- The `LinearRegression().fit(X_poly, y)` step (lines 201-202) modelled
in exact arithmetic: the least-squares coefficients solving the normal
equations `(Xᵀ X) θ = Xᵀ y` of the polynomially expanded design matrix.
sklearn's floating-point SVD realisation of the same deterministic
least-squares problem is abstracted to rationals. -/
def fitModel (X : List (List ℚ)) (y : List ℚ) : List ℚ :=
  cramerSolve (normalMatrix X) (normalVector X y)

/-- Input dataframe of `predict_stock_trend`, reduced to what it reads:
the date index (days from 1970-01-01) and the optional `Close` column
(`none` models a frame with no `Close` column, line 188). -/
structure StockFrame where
  dates : List Nat
  close : Option (List ℚ)
deriving DecidableEq, Repr

/-- `predict_stock_trend(stock_data, days_ahead)` (lines 185-216).  Empty
data or a missing `Close` column returns an empty frame (lines 188-189).
Otherwise, per historical point the features `(day_of_week, month)` are
built (lines 192-193), expanded to degree-2 polynomial terms (lines
198-199), a linear model is fitted (lines 201-202), the `days_ahead`
future dates `last_date + 1, ..., last_date + days_ahead` are generated
(lines 204-205), and each future date is paired with the model's
prediction on its expanded features (lines 208-216). -/
def predict_stock_trend (stock_data : StockFrame) (days_ahead : Nat) : List (Nat × ℚ) :=
  if stock_data.dates.isEmpty then []
  else
    match stock_data.close with
    | none => []
    | some closes =>
      let X := stock_data.dates.map (fun d =>
        polyFeatures2 (dayOfWeek d : ℚ) (monthOf d : ℚ))
      let coeffs := fitModel X closes
      let last_date := stock_data.dates.getLastD 0
      ((List.range days_ahead).map (fun i => last_date + (i + 1))).map
        (fun d => (d, dotQ coeffs (polyFeatures2 (dayOfWeek d : ℚ) (monthOf d : ℚ))))

/-- Environment for the refutation of the empty-string scenario: language
detection fails (as `langdetect` does on empty input), the English
classifier is loaded and reports `POSITIVE`, the remote call fails. -/
def envC1 : SentimentEnv :=
  ⟨fun _ => none, some (fun _ => some "POSITIVE"), none, fun _ => none⟩

/-- Environment with no tier available at all. -/
def envAllNone : SentimentEnv := ⟨fun _ => none, none, none, fun _ => none⟩

/-- Environment whose English classifier labels everything `NEGATIVE`. -/
def envC10 : SentimentEnv :=
  ⟨fun _ => some "en", some (fun _ => some "NEGATIVE"), none, fun _ => none⟩

/-- Environment used by the batch witness: no tier available. -/
def envB : SentimentEnv := ⟨fun _ => none, none, none, fun _ => none⟩

/-- A news row on which reading the title fails. -/
def rowBad : NewsRow := ⟨none, none⟩

/-- A well-formed single-row batch. -/
def rowsB : List NewsRow := [⟨some "headline", some 1⟩]

/-- Six-day close history for the moving-average witness. -/
def histW5 : List ℚ := [1, 2, 3, 4, 5, 6]

/-- Two-day history for the forecast-dates witness. -/
def sdW2 : StockFrame := ⟨[3, 4], some [10, 11]⟩

/-- One-day history ending on a Friday (day 1 = 1970-01-02). -/
def sdC3 : StockFrame := ⟨[1], some [10]⟩

/-- One-day history for the weekend-occurrence witness. -/
def sdW3 : StockFrame := ⟨[0], some [7]⟩

/-- Two-day history for the determinism witness. -/
def sdW9 : StockFrame := ⟨[0, 1], some [1, 2]⟩

/-- Empty history for the guard witness. -/
def sdEmpty : StockFrame := ⟨[], some []⟩

theorem parse_remote_cases (r : String) :
    parse_remote r = -1 ∨ parse_remote r = 0 ∨ parse_remote r = 1 := by
  unfold parse_remote
  split
  · exact Or.inr (Or.inr rfl)
  split
  · exact Or.inl rfl
  · exact Or.inr (Or.inl rfl)

theorem remoteStep_cases (env : SentimentEnv) (cleaned : String) (b : Bool) :
    (remoteStep env cleaned b).score = -1 ∨ (remoteStep env cleaned b).score = 0 ∨
    (remoteStep env cleaned b).score = 1 := by
  unfold remoteStep
  cases h : env.openai cleaned with
  | none => exact Or.inr (Or.inl rfl)
  | some resp => simpa using parse_remote_cases resp

theorem batchLoop_eq_filterMap (env : SentimentEnv) (l : List NewsRow) :
    batchLoop env l = l.filterMap (scoreRow env) := by
  induction l with
  | nil => rfl
  | cons row rest ih =>
    cases h : scoreRow env row with
    | none => simp [batchLoop, h, ih]
    | some e => simp [batchLoop, h, ih]

theorem predict_map_fst (sd : StockFrame) (closes : List ℚ) (n : Nat)
    (hne : sd.dates ≠ []) (hc : sd.close = some closes) :
    (predict_stock_trend sd n).map Prod.fst
      = (List.range n).map (fun i => sd.dates.getLastD 0 + (i + 1)) := by
  have hemp : sd.dates.isEmpty = false := by
    cases hd : sd.dates with
    | nil => exact absurd hd hne
    | cons a l => rfl
  simp [predict_stock_trend, hc, hemp, List.map_map, Function.comp]

theorem rollingMean_getElem (k : Nat) (c : List ℚ) (i : Nat) (h : i < c.length) :
    (rollingMean k c)[i]? =
      some (if i + 1 ≥ k then some ((((c.drop (i + 1 - k)).take k).sum) / (k : ℚ)) else none) := by
  unfold rollingMean
  rw [List.getElem?_map, List.getElem?_range h]
  rfl

/-- C4: for every input text and every outcome of every tier,
`analyze_sentiment(text)` returns an integer in {-1, 0, 1}. -/
theorem claim4_score_range (env : SentimentEnv) (text : String) (detailed : Bool) :
    (analyze_sentiment env text detailed).score = -1 ∨
    (analyze_sentiment env text detailed).score = 0 ∨
    (analyze_sentiment env text detailed).score = 1 := by
  unfold analyze_sentiment sentimentCore
  cases detailed with
  | true => simp
  | false =>
    simp only [Bool.false_eq_true, if_false]
    split
    · cases hs : env.sentiment_en with
      | none => simpa using remoteStep_cases env (stripTags text) false
      | some f =>
        cases hl : f (stripTags text) with
        | none => simpa [hl] using remoteStep_cases env (stripTags text) true
        | some label =>
          by_cases hp : label = "POSITIVE"
          · simp [hl, hp]
          · simp [hl, hp]
    split
    · cases hs : env.sentiment_zh with
      | none => simpa using remoteStep_cases env (stripTags text) false
      | some f =>
        cases hl : f (stripTags text) with
        | none => simpa [hl] using remoteStep_cases env (stripTags text) true
        | some label =>
          by_cases hp : label = "positive"
          · simp [hl, hp]
          · simp [hl, hp]
    · exact remoteStep_cases env (stripTags text) false

/-- C6: for every input text, `analyze_sentiment(text, detailed=True)`
returns 0 unconditionally, invoking neither the local classifiers nor the
remote fallback. -/
theorem claim6_detailed_dead_branch (env : SentimentEnv) (text : String) :
    analyze_sentiment env text true = ⟨0, false, false⟩ := rfl

/-- C1 counterexample: in the configuration where language detection fails
on the empty string (as it does), the English classifier is loaded and
labels it `POSITIVE`, and the remote tier is unreachable,
`analyze_sentiment("")` returns 1, not 0 — refuting the claim that the
empty string yields 0 in every tier configuration. -/
theorem claim1_counterexample :
    (analyze_sentiment envC1 "" false).score = 1 ∧
    ¬ (analyze_sentiment envC1 "" false).score = 0 := by decide

/-- C1 amended: `analyze_sentiment("")` returns 0 in every configuration
where the local classifier tier produces no label for the detected
language (model not loaded, or inference failing) and the remote fallback
either fails or returns a response containing neither POSITIVE nor
NEGATIVE. -/
theorem claim1_empty_text_zero (env : SentimentEnv)
    (hen : (env.detect (stripTags "")).getD "en" = "en" →
      ∀ f, env.sentiment_en = some f → f (stripTags "") = none)
    (hzh : (env.detect (stripTags "")).getD "en" = "zh" →
      ∀ f, env.sentiment_zh = some f → f (stripTags "") = none)
    (hrem : ∀ resp, env.openai (stripTags "") = some resp → parse_remote resp = 0) :
    (analyze_sentiment env "" false).score = 0 := by
  have hremote : ∀ b, (remoteStep env (stripTags "") b).score = 0 := by
    intro b
    unfold remoteStep
    cases h : env.openai (stripTags "") with
    | none => rfl
    | some resp => simpa using hrem resp h
  unfold analyze_sentiment sentimentCore
  simp only [Bool.false_eq_true, if_false]
  split
  · rename_i hlang
    cases hs : env.sentiment_en with
    | none => simpa using hremote false
    | some f => simp [hen hlang f hs, hremote true]
  split
  · rename_i hlang1 hlang
    cases hs : env.sentiment_zh with
    | none => simpa using hremote false
    | some f => simp [hzh hlang f hs, hremote true]
  · exact hremote false

/-- C1 amended witness: with no tier available at all the empty string
scores 0. -/
theorem claim1_empty_text_zero_witness :
    (analyze_sentiment envAllNone "" false).score = 0 :=
  claim1_empty_text_zero envAllNone
    (fun _ _ h => Option.noConfusion h)
    (fun _ _ h => Option.noConfusion h)
    (fun _ h => Option.noConfusion h)

/-- C10: whenever the local tier handles a text (detected language "en" or
"zh", corresponding model loaded, inference succeeding with some label),
the score is +1 exactly when the label equals the positive label
("POSITIVE" for English, "positive" for Chinese) and -1 for any other
label; it is never 0. -/
theorem claim10_local_label_mapping (env : SentimentEnv) (text : String) :
    (∀ f label, (env.detect (stripTags text)).getD "en" = "en" →
      env.sentiment_en = some f → f (stripTags text) = some label →
      (analyze_sentiment env text false).score = (if label = "POSITIVE" then 1 else -1) ∧
      (analyze_sentiment env text false).score ≠ 0) ∧
    (∀ f label, (env.detect (stripTags text)).getD "en" = "zh" →
      env.sentiment_zh = some f → f (stripTags text) = some label →
      (analyze_sentiment env text false).score = (if label = "positive" then 1 else -1) ∧
      (analyze_sentiment env text false).score ≠ 0) := by
  constructor
  · intro f label hlang hf hlabel
    have hs : (analyze_sentiment env text false).score
        = (if label = "POSITIVE" then 1 else -1) := by
      unfold analyze_sentiment sentimentCore
      simp [hlang, hf, hlabel]
    refine ⟨hs, ?_⟩
    rw [hs]
    by_cases hp : label = "POSITIVE" <;> simp [hp]
  · intro f label hlang hf hlabel
    have hs : (analyze_sentiment env text false).score
        = (if label = "positive" then 1 else -1) := by
      unfold analyze_sentiment sentimentCore
      simp [hlang, hf, hlabel]
    refine ⟨hs, ?_⟩
    rw [hs]
    by_cases hp : label = "positive" <;> simp [hp]

/-- C10 witness: an English text whose loaded classifier reports a
non-positive label scores -1 and not 0. -/
theorem claim10_witness :
    (analyze_sentiment envC10 "bad" false).score = -1 ∧
    (analyze_sentiment envC10 "bad" false).score ≠ 0 := by
  have h := (claim10_local_label_mapping envC10 "bad").1
    (fun _ => some "NEGATIVE") "NEGATIVE" rfl rfl rfl
  simpa using h

/-- C8: `batch_sentiment_analysis` scores exactly the ordered prefix of the
first `K` rows (result = order-preserving filterMap over `df.take K`),
returns at most `K` results, and a row whose title read fails is skipped
while the remaining rows are still processed. -/
theorem claim8_batch_prefix_skip (env : SentimentEnv) :
    (∀ (df : List NewsRow) (K : Nat),
      batch_sentiment_analysis env df K = (df.take K).filterMap (scoreRow env)) ∧
    (∀ (df : List NewsRow) (K : Nat), (batch_sentiment_analysis env df K).length ≤ K) ∧
    (∀ (row : NewsRow) (rest : List NewsRow) (K : Nat), row.title = none →
      batch_sentiment_analysis env (row :: rest) (K + 1) = batch_sentiment_analysis env rest K) := by
  refine ⟨fun df K => batchLoop_eq_filterMap env (df.take K), fun df K => ?_, fun row rest K h => ?_⟩
  · rw [show batch_sentiment_analysis env df K = batchLoop env (df.take K) from rfl,
      batchLoop_eq_filterMap env (df.take K)]
    exact le_trans (List.length_filterMap_le _ _) (List.length_take_le K df)
  · have hrow : scoreRow env row = none := by
      unfold scoreRow
      rw [h]
    simp [batch_sentiment_analysis, List.take_succ_cons, batchLoop, hrow]

/-- C8 witness: a failing first row is skipped and the rest of the prefix
is still processed. -/
theorem claim8_witness :
    rowBad.title = none ∧
    batch_sentiment_analysis envB (rowBad :: rowsB) 3 = batch_sentiment_analysis envB rowsB 2 :=
  ⟨rfl, (claim8_batch_prefix_skip envB).2.2 rowBad rowsB 2 rfl⟩

/-- C5: in the frame returned by `fetch_stock_data`, the moving average
MA_K (K = 5, 20) is missing at position i while fewer than K closes exist
up to and including i, and once K closes exist it is the mean of the
trailing window of K closes ending at that point. -/
theorem claim5_moving_average (hist : List ℚ) (i : Nat) (h : i < hist.length) :
    (fetch_stock_data hist).ma5[i]? =
      some (if i + 1 < 5 then none
        else some ((((hist.drop (i + 1 - 5)).take 5).sum) / (5 : ℚ))) ∧
    (fetch_stock_data hist).ma20[i]? =
      some (if i + 1 < 20 then none
        else some ((((hist.drop (i + 1 - 20)).take 20).sum) / (20 : ℚ))) := by
  have hne : hist.isEmpty = false := by
    cases hist with
    | nil => simp at h
    | cons a l => rfl
  have hframe : fetch_stock_data hist = ⟨hist, rollingMean 5 hist, rollingMean 20 hist⟩ := by
    unfold fetch_stock_data
    rw [hne]
    rfl
  rw [hframe]
  constructor
  · rw [show (⟨hist, rollingMean 5 hist, rollingMean 20 hist⟩ : FetchedFrame).ma5
        = rollingMean 5 hist from rfl, rollingMean_getElem 5 hist i h]
    rcases Nat.lt_or_ge (i + 1) 5 with h5 | h5
    · simp [h5, Nat.not_le.mpr h5]
    · simp [h5, Nat.not_lt.mpr h5]
  · rw [show (⟨hist, rollingMean 5 hist, rollingMean 20 hist⟩ : FetchedFrame).ma20
        = rollingMean 20 hist from rfl, rollingMean_getElem 20 hist i h]
    rcases Nat.lt_or_ge (i + 1) 20 with h20 | h20
    · simp [h20, Nat.not_le.mpr h20]
    · simp [h20, Nat.not_lt.mpr h20]

/-- C5 witness: on a six-day history the MA5 at position 4 (the fifth
point) is the mean 3 of the first five closes, while MA20 is still
missing there. -/
theorem claim5_witness :
    (fetch_stock_data histW5).ma5[4]? = some (some 3) ∧
    (fetch_stock_data histW5).ma20[4]? = some none := by
  have h := claim5_moving_average histW5 4 (by decide)
  refine ⟨?_, ?_⟩
  · rw [h.1]
    norm_num [histW5]
  · rw [h.2]
    norm_num [histW5]

/-- C7: for every horizon, `predict_stock_trend` on an empty history or on
a history without a `Close` column returns the empty result (and, being a
total function, raises no error). -/
theorem claim7_empty_guard (sd : StockFrame) (n : Nat)
    (h : sd.dates = [] ∨ sd.close = none) :
    predict_stock_trend sd n = [] := by
  rcases h with h | h
  · simp [predict_stock_trend, h]
  · unfold predict_stock_trend
    rw [h]
    split
    · rfl
    · rfl

/-- C7 witness: the empty history yields the empty forecast. -/
theorem claim7_witness : predict_stock_trend sdEmpty 5 = [] :=
  claim7_empty_guard sdEmpty 5 (Or.inl rfl)

/-- C9: `predict_stock_trend` is deterministic — the embedding is a pure
function of the history and the horizon (the source path uses no
randomness, no train/test split and no hidden state), so two calls on
identical inputs return identical dates and predicted closes. -/
theorem claim9_deterministic (sd1 sd2 : StockFrame) (n1 n2 : Nat)
    (h1 : sd1 = sd2) (h2 : n1 = n2) :
    predict_stock_trend sd1 n1 = predict_stock_trend sd2 n2 := by
  rw [h1, h2]

/-- C9 witness: repeated identical calls coincide on a concrete input. -/
theorem claim9_witness : predict_stock_trend sdW9 3 = predict_stock_trend sdW9 3 :=
  claim9_deterministic sdW9 sdW9 3 3 rfl rfl

/-- C2: on a non-empty history with a `Close` column and horizon `n ≥ 1`,
the forecast has exactly `n` points; their dates are the consecutive
calendar days `last + 1, ..., last + n`, strictly increasing, the first
being the day immediately after the last historical date. -/
theorem claim2_forecast_dates (sd : StockFrame) (closes : List ℚ) (n : Nat)
    (hne : sd.dates ≠ []) (hc : sd.close = some closes) (hn : 1 ≤ n) :
    (predict_stock_trend sd n).length = n ∧
    (predict_stock_trend sd n).map Prod.fst
      = (List.range n).map (fun i => sd.dates.getLastD 0 + (i + 1)) ∧
    ((predict_stock_trend sd n).map Prod.fst).head? = some (sd.dates.getLastD 0 + 1) ∧
    List.Pairwise (· < ·) ((predict_stock_trend sd n).map Prod.fst) := by
  have hmap := predict_map_fst sd closes n hne hc
  refine ⟨?_, hmap, ?_, ?_⟩
  · have hlen := congrArg List.length hmap
    simpa using hlen
  · rw [hmap]
    obtain ⟨m, rfl⟩ : ∃ m, n = m + 1 := ⟨n - 1, by omega⟩
    rw [List.range_succ_eq_map]
    simp
  · rw [hmap]
    exact List.Pairwise.map _ (fun a b hab => by omega) (List.pairwise_lt_range n)

/-- C2 witness: a two-day history with last date 4 forecast 2 days ahead
yields the dates 5 and 6. -/
theorem claim2_witness :
    (predict_stock_trend sdW2 2).length = 2 ∧
    (predict_stock_trend sdW2 2).map Prod.fst
      = (List.range 2).map (fun i => sdW2.dates.getLastD 0 + (i + 1)) ∧
    ((predict_stock_trend sdW2 2).map Prod.fst).head? = some (sdW2.dates.getLastD 0 + 1) ∧
    List.Pairwise (· < ·) ((predict_stock_trend sdW2 2).map Prod.fst) :=
  claim2_forecast_dates sdW2 [10, 11] 2 (by decide) rfl (by decide)

/-- C3 counterexample: forecasting one day after a history ending on a
Friday (day 1 = 1970-01-02) yields a forecast point dated on a Saturday —
forecast dates are not business days. -/
theorem claim3_counterexample :
    ∃ p ∈ predict_stock_trend sdC3 1, dayOfWeek p.1 = 5 ∨ dayOfWeek p.1 = 6 := by
  have hmap := predict_map_fst sdC3 [10] 1 (by decide) rfl
  have h2 : 2 ∈ (predict_stock_trend sdC3 1).map Prod.fst := by
    rw [hmap]
    decide
  obtain ⟨p, hp, hfst⟩ := List.mem_map.mp h2
  exact ⟨p, hp, Or.inl (by rw [hfst]; rfl)⟩

/-- C3 amended: the forecast dates are consecutive calendar days with no
business-day adjustment; consequently every forecast with horizon at
least 7 contains a Saturday. -/
theorem claim3_weekend_dates (sd : StockFrame) (closes : List ℚ) (n : Nat)
    (hne : sd.dates ≠ []) (hc : sd.close = some closes) (hn : 7 ≤ n) :
    ∃ p ∈ predict_stock_trend sd n, dayOfWeek p.1 = 5 := by
  have hmap := predict_map_fst sd closes n hne hc
  obtain ⟨i, hi7, hwd⟩ :
      ∃ i, i < 7 ∧ (sd.dates.getLastD 0 + (i + 1) + 3) % 7 = 5 := by
    refine ⟨(12 - (sd.dates.getLastD 0 + 4) % 7) % 7, by omega, by omega⟩
  have himem : sd.dates.getLastD 0 + (i + 1) ∈ (predict_stock_trend sd n).map Prod.fst := by
    rw [hmap]
    exact List.mem_map_of_mem _ (List.mem_range.mpr (by omega))
  obtain ⟨p, hp, hfst⟩ := List.mem_map.mp himem
  refine ⟨p, hp, ?_⟩
  unfold dayOfWeek
  rw [hfst]
  exact hwd

/-- C3 amended witness: a 7-day forecast from a one-day history contains a
Saturday. -/
theorem claim3_weekend_witness :
    ∃ p ∈ predict_stock_trend sdW3 7, dayOfWeek p.1 = 5 :=
  claim3_weekend_dates sdW3 [7] 7 (by decide) rfl (by decide)
